import Mathlib

/-!
Verification of the carpool-coordination backend (FastAPI + SQLModel).

Shallow embedding of the canonical source variant under `app/`:
`app/models.py` (entity tables), `app/schemas.py` (request shapes) and
`app/main.py` (route handlers).  The database session is modelled as an
explicit `DB` state threaded through each handler; SQL queries become list
operations; the uniqueness constraint on `reservation (ride_id, rider_id)`
becomes an explicit membership test at insert time, mirroring the
`IntegrityError` raised by the store on commit.  `datetime` values are
modelled as `Nat` timestamps: `datetime.isoformat()` orders exactly as the
underlying instant, so sorting by the serialized string in `list_rides`
coincides with sorting by the timestamp.  Python `int` is `Int` where the
source performs no range validation (`seats_total`).
-/

namespace Carpool

/-- Mirrors `app/models.py` `User` (SQLModel table, unique email). -/
structure User where
  id : Nat
  name : String
  email : String
  role : String := "RIDER"
  avatar_url : Option String := none
  nickname : Option String := none
  owns_car : Bool := false
  bio : Option String := none
  phone : Option String := none
  created_at : Nat := 0
  updated_at : Nat := 0
deriving Repr, DecidableEq

/-- Mirrors `app/models.py` `Vehicle` (unique (owner_id, license_plate)). -/
structure Vehicle where
  id : Nat
  owner_id : Nat
  name : String
  model : String
  license_plate : Option String := none
  photo_url : Option String := none
  created_at : Nat := 0
deriving Repr, DecidableEq

/-- Mirrors `app/models.py` `Ride`.  `seats_total` is a raw Python `int`:
the source nowhere constrains its sign, so it is `Int` here. -/
structure Ride where
  id : Nat
  host_id : Nat
  vehicle_id : Nat
  origin : String
  departure_time : Nat
  seats_total : Int
  notes : Option String := none
  created_at : Nat := 0
deriving Repr, DecidableEq

/-- Mirrors `app/models.py` `Reservation`
(unique (ride_id, rider_id), status defaults to CONFIRMED). -/
structure Reservation where
  id : Nat
  ride_id : Nat
  rider_id : Nat
  created_at : Nat := 0
  status : String := "CONFIRMED"
  cancelled_at : Option Nat := none
deriving Repr, DecidableEq

/-- The persistent store: the four tables of `app/database.py` plus the
auto-increment counters the store keeps for primary keys. -/
structure DB where
  users : List User
  vehicles : List Vehicle
  rides : List Ride
  reservations : List Reservation
  nextRideId : Nat := 1
  nextReservationId : Nat := 1
deriving Repr, DecidableEq

/-- One constructor per `HTTPException` raise site in `app/main.py`
(the §7 error taxonomy of the spec maps onto these). -/
inductive ApiError where
  /-- `404 "Ride not found"` in `reserve`. -/
  | rideNotFound
  /-- `400 "Host cannot reserve own ride"` in `reserve`
  (spec: `SelfReservationRejected`). -/
  | selfReservation
  /-- `400 "Ride is full"` in `reserve` (spec: `RideFull`). -/
  | rideFull
  /-- `400 "You already reserved a seat on this ride"` in `reserve`,
  produced from the caught `IntegrityError`
  (spec: `DuplicateReservation`). -/
  | duplicateReservation
  /-- `404 "User not found"` in `update_user`. -/
  | userNotFound
  /-- `403 "You can only update your own profile"` in `update_user`
  (spec: `Forbidden`). -/
  | forbidden
  /-- `404 "Host not found"` in `create_ride`. -/
  | hostNotFound
  /-- `400` owns-car gate in `create_ride` (spec: `ValidationFailed`). -/
  | mustOwnCar
  /-- `400` no-vehicle gate in `create_ride` (spec: `ValidationFailed`). -/
  | noVehicle
  /-- `400 "Departure time must be in the future"` in `create_ride`
  (spec: `ValidationFailed`). -/
  | departureInPast
deriving Repr, DecidableEq

/-- The HTTP status code each raise site carries in `app/main.py`. -/
def ApiError.status : ApiError → Nat
  | .rideNotFound => 404
  | .userNotFound => 404
  | .hostNotFound => 404
  | .forbidden => 403
  | _ => 400

/-- `session.exec(select(Ride).where(Ride.id == ride_id)).one_or_none()`:
first ride row with the given id. -/
def findRide (db : DB) (rideId : Nat) : Option Ride :=
  db.rides.find? (fun r => r.id == rideId)

/-- `session.get(User, user_id)`: first user row with the given id. -/
def findUser (db : DB) (userId : Nat) : Option User :=
  db.users.find? (fun u => u.id == userId)

/-- `session.get(Vehicle, vehicle_id)`. -/
def findVehicle (db : DB) (vehicleId : Nat) : Option Vehicle :=
  db.vehicles.find? (fun v => v.id == vehicleId)

/-- The aggregate both `reserve` and `ride_to_full_dict` issue:
`select(count(Reservation.id)).where(ride_id == R and status == "CONFIRMED")`. -/
def confirmedCount (db : DB) (rideId : Nat) : Nat :=
  (db.reservations.filter
    (fun r => r.ride_id == rideId && r.status == "CONFIRMED")).length

/-- Whether a reservation row for (rideId, riderId) exists, any status:
this is exactly what the `UniqueConstraint("ride_id", "rider_id")` of
`app/models.py` checks when `session.commit()` runs the insert. -/
def hasReservationRow (db : DB) (rideId riderId : Nat) : Bool :=
  db.reservations.any (fun r => r.ride_id == rideId && r.rider_id == riderId)

/-- The row `m.Reservation(ride_id=ride.id, rider_id=user_id,
status="CONFIRMED")` built by `reserve`, with the store's next
auto-increment id and creation timestamp. -/
def newReservation (db : DB) (ride : Ride) (userId now : Nat) : Reservation :=
  { id := db.nextReservationId, ride_id := ride.id, rider_id := userId,
    created_at := now, status := "CONFIRMED" }

/-- `session.add(res); session.commit()` on the reservations table. -/
def insertReservation (db : DB) (ride : Ride) (userId now : Nat) : DB :=
  { db with
    reservations := db.reservations ++ [newReservation db ride userId now],
    nextReservationId := db.nextReservationId + 1 }

/-- `POST /api/reservations` (`reserve` in `app/main.py`).  The row lock
`with_for_update()` serializes attempts on one ride, so a single attempt
sees a quiescent state: checks run in source order — ride existence, host
self-reservation, live CONFIRMED count against `seats_total` — then the
insert; a uniqueness violation at commit is rolled back and reported as
`duplicateReservation`. -/
def reserve (db : DB) (userId rideId now : Nat) :
    Except ApiError Reservation × DB :=
  match findRide db rideId with
  | none => (.error .rideNotFound, db)
  | some ride =>
    if ride.host_id == userId then
      (.error .selfReservation, db)
    else
      let taken := confirmedCount db ride.id
      if (taken : Int) ≥ ride.seats_total then
        (.error .rideFull, db)
      else if hasReservationRow db ride.id userId then
        -- `session.commit()` raises `IntegrityError`; `session.rollback()`
        -- leaves the store unchanged and the handler re-raises 400.
        (.error .duplicateReservation, db)
      else
        (.ok (newReservation db ride userId now),
         insertReservation db ride userId now)

/-- Mirrors `app/schemas.py` `RideCreate`. -/
structure RideCreate where
  origin : String
  departure_time : Nat
  seats_total : Int
  notes : Option String := none
deriving Repr, DecidableEq

/-- `POST /api/rides` (`create_ride` in `app/main.py`): host must exist,
must have `owns_car`, must own at least one vehicle (the first is used),
and `departure_time` must not be strictly before `utcnow()`; then the ride
row is inserted. -/
def create_ride (db : DB) (userId : Nat) (payload : RideCreate) (now : Nat) :
    Except ApiError Ride × DB :=
  match findUser db userId with
  | none => (.error .hostNotFound, db)
  | some host =>
    if !host.owns_car then
      (.error .mustOwnCar, db)
    else
      match db.vehicles.filter (fun v => v.owner_id == userId) with
      | [] => (.error .noVehicle, db)
      | veh :: _ =>
        if payload.departure_time < now then
          (.error .departureInPast, db)
        else
          let ride : Ride :=
            { id := db.nextRideId, host_id := userId, vehicle_id := veh.id,
              origin := payload.origin,
              departure_time := payload.departure_time,
              seats_total := payload.seats_total, notes := payload.notes }
          (.ok ride,
           { db with rides := db.rides ++ [ride],
                     nextRideId := db.nextRideId + 1 })

/-- Mirrors `app/schemas.py` `UserUpdate` under
`model_dump(exclude_unset=True)`: the outer `Option` is set/unset, the
inner `Option` of the nullable profile fields is the explicit JSON null
that clears the column. -/
structure UserUpdate where
  nickname : Option (Option String) := none
  owns_car : Option Bool := none
  bio : Option (Option String) := none
  phone : Option (Option String) := none
  avatar_url : Option (Option String) := none
deriving Repr, DecidableEq

/-- The `setattr` loop of `update_user`: each field present in the dump
overwrites; absent fields keep their value. -/
def applyUserPatch (u : User) (p : UserUpdate) : User :=
  { u with
    nickname := p.nickname.getD u.nickname,
    owns_car := p.owns_car.getD u.owns_car,
    bio := p.bio.getD u.bio,
    phone := p.phone.getD u.phone,
    avatar_url := p.avatar_url.getD u.avatar_url }

/-- `PATCH /api/users/{user_id}` (`update_user` in `app/main.py`):
ownership check first (403), then existence (404), then the patch loop,
then `updated_at = utcnow()` and commit. -/
def update_user (db : DB) (userId : Nat) (payload : UserUpdate)
    (currentId now : Nat) : Except ApiError User × DB :=
  if currentId != userId then
    (.error .forbidden, db)
  else
    match findUser db userId with
    | none => (.error .userNotFound, db)
    | some user =>
      let patched := { applyUserPatch user payload with updated_at := now }
      (.ok patched,
       { db with users :=
          db.users.map (fun u => if u.id == userId then patched else u) })

/-- The plain dict `ride_to_full_dict` returns for `GET /api/rides`. -/
structure RideView where
  id : Nat
  host_id : Nat
  vehicle_id : Nat
  origin : String
  departure_time : Nat
  seats_total : Int
  seats_taken : Nat
  notes : Option String
  destination : String
  host_nickname : Option String
  host_avatar_url : Option String
  vehicle_name : Option String
  vehicle_model : Option String
  vehicle_photo_url : Option String
deriving Repr, DecidableEq

/-- `ride_to_full_dict` in `app/main.py`: live CONFIRMED count, host and
vehicle joins (None-propagating when the joined row is missing), constant
`destination = "Rally"`. -/
def ride_to_full_dict (db : DB) (r : Ride) : RideView :=
  let taken := confirmedCount db r.id
  let host := findUser db r.host_id
  let veh := findVehicle db r.vehicle_id
  { id := r.id, host_id := r.host_id, vehicle_id := r.vehicle_id,
    origin := r.origin, departure_time := r.departure_time,
    seats_total := r.seats_total, seats_taken := taken, notes := r.notes,
    destination := "Rally",
    host_nickname := host.bind User.nickname,
    host_avatar_url := host.bind User.avatar_url,
    vehicle_name := veh.map Vehicle.name,
    vehicle_model := veh.map Vehicle.model,
    vehicle_photo_url := veh.bind Vehicle.photo_url }

/-- `GET /api/rides` (`list_rides` in `app/main.py`): every ride row mapped
through `ride_to_full_dict`, then `out.sort(key=departure_time)` — Python
`list.sort` is a stable mergesort, modelled by `List.mergeSort`. -/
def list_rides (db : DB) : List RideView :=
  (db.rides.map (ride_to_full_dict db)).mergeSort
    (fun a b => a.departure_time ≤ b.departure_time)

/-- A batch of reservation attempts against one ride.  The
`with_for_update()` row lock serializes concurrent attempts on the same
ride (spec §4.2/§5), so every interleaving of concurrent requests is
observationally one sequential order of the attempts; quantifying over the
rider list covers all such orders. -/
def reserveAll (db : DB) (riders : List Nat) (rideId now : Nat) :
    List (Except ApiError Reservation) × DB :=
  match riders with
  | [] => ([], db)
  | uid :: rest =>
    let step := reserve db uid rideId now
    let next := reserveAll step.2 rest rideId now
    (step.1 :: next.1, next.2)

/-- Number of successful outcomes in a batch. -/
def successCount (outs : List (Except ApiError Reservation)) : Nat :=
  (outs.filter Except.isOk).length

/-- Spec §3 Invariant B: no ride's CONFIRMED count exceeds its
`seats_total`. -/
def InvariantB (db : DB) : Prop :=
  ∀ r ∈ db.rides, (confirmedCount db r.id : Int) ≤ r.seats_total

/-- `ride.id` is the primary key of the rides table: distinct rows have
distinct ids. -/
def ridesIdNodup (db : DB) : Prop :=
  (db.rides.map Ride.id).Nodup

/-- The store-level `UniqueConstraint("ride_id", "rider_id")` of
`app/models.py`: no two reservation rows share a (ride, rider) pair. -/
def pairUnique (db : DB) : Prop :=
  db.reservations.Pairwise
    (fun a b => ¬(a.ride_id = b.ride_id ∧ a.rider_id = b.rider_id))

/-- Spec §3 Invariant A: at most one CONFIRMED reservation per
(ride, rider). -/
def InvariantA (db : DB) : Prop :=
  ∀ rideId riderId : Nat,
    (db.reservations.filter (fun r =>
      r.ride_id == rideId && r.rider_id == riderId &&
      r.status == "CONFIRMED")).length ≤ 1

/-! Concrete fixtures used by witnesses and counterexamples: host 1 owns
car and vehicle 1 and hosts ride 1 with a single seat; users 2 and 3 are
riders. -/

/-- Fixture: the host user. -/
def hostU : User :=
  { id := 1, name := "H", email := "h@example.com", owns_car := true }

/-- Fixture: rider A. -/
def riderA : User :=
  { id := 2, name := "A", email := "a@example.com" }

/-- Fixture: rider B. -/
def riderB : User :=
  { id := 3, name := "B", email := "b@example.com" }

/-- Fixture: the host's vehicle. -/
def carV : Vehicle :=
  { id := 1, owner_id := 1, name := "car", model := "m" }

/-- Fixture: a one-seat ride hosted by user 1. -/
def rideW : Ride :=
  { id := 1, host_id := 1, vehicle_id := 1, origin := "o",
    departure_time := 100, seats_total := 1 }

/-- Fixture: the store holding the fixtures above and no reservations. -/
def dbW : DB :=
  { users := [hostU, riderA, riderB], vehicles := [carV], rides := [rideW],
    reservations := [] }

/-- Fixture: a creation request with zero seats and departure equal to the
clock value 50 used in the counterexample. -/
def payloadZero : RideCreate :=
  { origin := "o", departure_time := 50, seats_total := 0 }

/-- Fixture: the ride row `create_ride dbW 1 payloadZero 50` inserts. -/
def rideZero : Ride :=
  { id := 1, host_id := 1, vehicle_id := 1, origin := "o",
    departure_time := 50, seats_total := 0 }

/-- Fixture: an existing CONFIRMED reservation by rider 2 on ride 1. -/
def resA : Reservation :=
  { id := 1, ride_id := 1, rider_id := 2, created_at := 0 }

/-- Fixture: the store after rider 2 already holds the single seat. -/
def dbFull : DB :=
  { users := [hostU, riderA, riderB], vehicles := [carV], rides := [rideW],
    reservations := [resA], nextReservationId := 2 }

/-- Fixture: a second ride with three seats hosted by user 1. -/
def rideTwo : Ride :=
  { id := 2, host_id := 1, vehicle_id := 1, origin := "o",
    departure_time := 200, seats_total := 3 }

/-- Fixture: an existing CONFIRMED reservation by rider 2 on ride 2. -/
def resB : Reservation :=
  { id := 1, ride_id := 2, rider_id := 2, created_at := 0 }

/-- Fixture: a store where ride 2 has free seats but rider 2 already holds
a reservation row on it. -/
def dbDup : DB :=
  { users := [hostU, riderA, riderB], vehicles := [carV],
    rides := [rideW, rideTwo], reservations := [resB],
    nextReservationId := 2 }

deriving instance DecidableEq for Except

/-- Fixture: a patch that sets a new nickname, sets `owns_car`, clears the
bio with an explicit null, and leaves phone and avatar unset. -/
def patchW : UserUpdate :=
  { nickname := some (some "Zed"), owns_car := some true, bio := some none }

/-!
Theorems.  One per claim of the specification review, plus shared helper
lemmas, witnesses and counterexamples.
-/

/-- Claim C3: `reserve` evaluates its preconditions in a fixed order and
returns the first violated one's failure: `rideNotFound` when the ride is
absent; `selfReservation` when the caller is the host, regardless of seat
availability; `rideFull` when the live CONFIRMED count has reached
`seats_total`.  In each failure case the store is returned unchanged (no
reservation row is inserted). -/
theorem reserve_check_order (db : DB) (userId rideId now : Nat) :
    (findRide db rideId = none →
      reserve db userId rideId now = (.error .rideNotFound, db)) ∧
    (∀ ride, findRide db rideId = some ride → ride.host_id = userId →
      reserve db userId rideId now = (.error .selfReservation, db)) ∧
    (∀ ride, findRide db rideId = some ride → ride.host_id ≠ userId →
      (confirmedCount db ride.id : Int) ≥ ride.seats_total →
      reserve db userId rideId now = (.error .rideFull, db)) := by
  refine ⟨fun h => ?_, fun ride h hh => ?_, fun ride h hh hc => ?_⟩ <;>
    simp [reserve, h]
  · simp [hh]
  · simp [hh, hc, not_lt.2 hc]

/-- Witness for `reserve_check_order`: the host of ride 1 is rejected with
`selfReservation` even though a seat is free; a non-host rider hits
`rideFull` on the fully-booked store; a missing ride id gives
`rideNotFound`.  Each case leaves the store unchanged. -/
theorem reserve_check_order_witness :
    reserve dbW 1 1 5 = (.error .selfReservation, dbW) ∧
    reserve dbFull 3 1 5 = (.error .rideFull, dbFull) ∧
    reserve dbW 2 99 5 = (.error .rideNotFound, dbW) :=
  ⟨(reserve_check_order dbW 1 1 5).2.1 rideW (by decide) (by decide),
   (reserve_check_order dbFull 3 1 5).2.2 rideW (by decide) (by decide)
     (by decide),
   (reserve_check_order dbW 2 99 5).1 (by decide)⟩

/-- Counterexample to claim C5 as stated: on the one-seat ride of `dbW`,
after rider 2 takes the seat, rider 2's second attempt fails with
`rideFull` — not `duplicateReservation` — because the capacity check runs
before the insert that would trip the uniqueness constraint. -/
theorem scenario_repeat_rider_counterexample :
    (reserve (reserve dbW 2 1 10).2 2 1 12).1 = .error .rideFull ∧
    (reserve (reserve dbW 2 1 10).2 2 1 12).1 ≠ .error .duplicateReservation := by
  decide

/-- Claim C5 as amended: on a one-seat ride, rider 2's first reserve
succeeds with a CONFIRMED reservation, rider 3 then fails with `rideFull`,
and rider 2's second attempt also fails with `rideFull` (the capacity
check precedes duplicate detection, so `duplicateReservation` is
unreachable on a full ride). -/
theorem scenario_seats_one :
    ((reserve dbW 2 1 10).1.map Reservation.status = .ok "CONFIRMED") ∧
    (reserve (reserve dbW 2 1 10).2 3 1 11).1 = .error .rideFull ∧
    (reserve (reserve dbW 2 1 10).2 2 1 12).1 = .error .rideFull := by
  decide

/-- Counterexample to claim C6 as stated: `create_ride` accepts a request
with `seats_total = 0` (not a positive integer) and `departure_time`
exactly equal to the current clock (not strictly in the future). -/
theorem create_ride_unvalidated_counterexample :
    ((create_ride dbW 1 payloadZero 50).1.map Ride.seats_total = .ok 0) ∧
    ((create_ride dbW 1 payloadZero 50).1.map Ride.departure_time = .ok 50) := by
  decide

/-- Claim C6 as amended: every ride accepted by `create_ride` has a
departure time no earlier than the creation clock (only strictly-past
departures are rejected), and its `seats_total` is taken from the request
unvalidated. -/
theorem create_ride_departure_bound (db : DB) (userId : Nat)
    (payload : RideCreate) (now : Nat) (ride : Ride)
    (h : (create_ride db userId payload now).1 = .ok ride) :
    now ≤ ride.departure_time ∧ ride.seats_total = payload.seats_total := by
  unfold create_ride at h
  cases hf : findUser db userId with
  | none => simp [hf] at h
  | some host =>
    simp [hf] at h
    by_cases hc : host.owns_car
    · simp [hc] at h
      cases hv : db.vehicles.filter (fun v => v.owner_id == userId) with
      | nil => simp [hv] at h
      | cons veh rest =>
        simp [hv] at h
        by_cases hd : payload.departure_time < now
        · simp [hd] at h
        · simp [hd] at h
          subst h
          simp
          omega
    · simp [hc] at h

/-- Witness for `create_ride_departure_bound` at the concrete acceptance
from the counterexample input. -/
theorem create_ride_departure_bound_witness :
    (50 : Nat) ≤ rideZero.departure_time ∧
    rideZero.seats_total = payloadZero.seats_total :=
  create_ride_departure_bound dbW 1 payloadZero 50 rideZero (by decide)

/-- Claim C10: `update_user` checks ownership before existence: a caller
whose id differs from the path id gets `forbidden` (403) with the store
unchanged, even when no such user exists; `userNotFound` (404) is
reachable only when the caller targets their own id and that row is
missing. -/
theorem update_user_auth_order (db : DB) (userId : Nat) (payload : UserUpdate)
    (currentId now : Nat) :
    (currentId ≠ userId →
      update_user db userId payload currentId now = (.error .forbidden, db)) ∧
    ((update_user db userId payload currentId now).1 = .error .userNotFound →
      currentId = userId ∧ findUser db userId = none) := by
  constructor
  · intro hne
    simp [update_user, hne]
  · intro h
    unfold update_user at h
    by_cases he : currentId = userId
    · subst he
      simp at h
      cases hf : findUser db currentId with
      | none => exact ⟨rfl, rfl⟩
      | some u => simp [hf] at h
    · simp [he] at h

/-- Witness for `update_user_auth_order`: caller 2 patching user 1 is
rejected with `forbidden` although user 1 exists; caller 99 patching the
missing user 99 establishes the only route to `userNotFound`. -/
theorem update_user_auth_order_witness :
    update_user dbW 1 {} 2 7 = (.error .forbidden, dbW) ∧
    ((99 : Nat) = 99 ∧ findUser dbW 99 = none) :=
  ⟨(update_user_auth_order dbW 1 {} 2 7).1 (by decide),
   (update_user_auth_order dbW 99 {} 99 7).2 (by decide)⟩

/-- Claim C9: `update_user` on an existing user applies exactly the patch
fields that are present (a field set to an explicit null is written as the
cleared value, a field absent from the dump is untouched), leaves the
non-patchable fields (id, name, email, role, created_at) unchanged, sets
`updated_at` to the current clock, and leaves every other user row
untouched; on a missing user it fails with `userNotFound` and returns the
store unchanged. -/
theorem update_user_patch_semantics (db : DB) (userId : Nat) (p : UserUpdate)
    (now : Nat) :
    (∀ u, findUser db userId = some u →
      ∃ u', (update_user db userId p userId now).1 = .ok u' ∧
        (∀ v, p.nickname = some v → u'.nickname = v) ∧
        (p.nickname = none → u'.nickname = u.nickname) ∧
        (∀ v, p.owns_car = some v → u'.owns_car = v) ∧
        (p.owns_car = none → u'.owns_car = u.owns_car) ∧
        (∀ v, p.bio = some v → u'.bio = v) ∧
        (p.bio = none → u'.bio = u.bio) ∧
        (∀ v, p.phone = some v → u'.phone = v) ∧
        (p.phone = none → u'.phone = u.phone) ∧
        (∀ v, p.avatar_url = some v → u'.avatar_url = v) ∧
        (p.avatar_url = none → u'.avatar_url = u.avatar_url) ∧
        u'.id = u.id ∧ u'.name = u.name ∧ u'.email = u.email ∧
        u'.role = u.role ∧ u'.created_at = u.created_at ∧
        u'.updated_at = now ∧
        (∀ x ∈ db.users, x.id ≠ userId →
          x ∈ (update_user db userId p userId now).2.users)) ∧
    (findUser db userId = none →
      update_user db userId p userId now = (.error .userNotFound, db)) := by
  constructor
  · intro u hu
    refine ⟨{ applyUserPatch u p with updated_at := now }, ?_,
      fun v hv => by simp [applyUserPatch, hv],
      fun hv => by simp [applyUserPatch, hv],
      fun v hv => by simp [applyUserPatch, hv],
      fun hv => by simp [applyUserPatch, hv],
      fun v hv => by simp [applyUserPatch, hv],
      fun hv => by simp [applyUserPatch, hv],
      fun v hv => by simp [applyUserPatch, hv],
      fun hv => by simp [applyUserPatch, hv],
      fun v hv => by simp [applyUserPatch, hv],
      fun hv => by simp [applyUserPatch, hv],
      by simp [applyUserPatch], by simp [applyUserPatch],
      by simp [applyUserPatch], by simp [applyUserPatch],
      by simp [applyUserPatch], by simp, ?_⟩
    · simp [update_user, hu]
    · intro x hx hne
      have hus : (update_user db userId p userId now).2.users =
          db.users.map (fun y => if y.id == userId then
            { applyUserPatch u p with updated_at := now } else y) := by
        simp [update_user, hu]
      rw [hus]
      exact List.mem_map.2 ⟨x, hx, by simp [hne]⟩
  · intro h
    simp [update_user, h]

/-- Witness for `update_user_patch_semantics`: rider 2 patches their own
profile with `patchW` (nickname set, owns_car set, bio explicitly
nulled). -/
theorem update_user_patch_semantics_witness :
    ∃ u', (update_user dbW 2 patchW 2 9).1 = .ok u' ∧
      (∀ v, patchW.nickname = some v → u'.nickname = v) ∧
      (patchW.nickname = none → u'.nickname = riderA.nickname) ∧
      (∀ v, patchW.owns_car = some v → u'.owns_car = v) ∧
      (patchW.owns_car = none → u'.owns_car = riderA.owns_car) ∧
      (∀ v, patchW.bio = some v → u'.bio = v) ∧
      (patchW.bio = none → u'.bio = riderA.bio) ∧
      (∀ v, patchW.phone = some v → u'.phone = v) ∧
      (patchW.phone = none → u'.phone = riderA.phone) ∧
      (∀ v, patchW.avatar_url = some v → u'.avatar_url = v) ∧
      (patchW.avatar_url = none → u'.avatar_url = riderA.avatar_url) ∧
      u'.id = riderA.id ∧ u'.name = riderA.name ∧ u'.email = riderA.email ∧
      u'.role = riderA.role ∧ u'.created_at = riderA.created_at ∧
      u'.updated_at = 9 ∧
      (∀ x ∈ dbW.users, x.id ≠ 2 →
        x ∈ (update_user dbW 2 patchW 2 9).2.users) :=
  (update_user_patch_semantics dbW 2 patchW 9).1 riderA (by decide)

/-- Claim C7: when the caller exists but has `owns_car = false`, or owns no
vehicle, or requests a departure time strictly in the past, `create_ride`
fails with a 400 validation error and the store — in particular the rides
table — is returned unchanged (the checks run before the insert). -/
theorem create_ride_validation_rejects (db : DB) (userId : Nat)
    (payload : RideCreate) (now : Nat) (u : User)
    (hu : findUser db userId = some u)
    (hbad : u.owns_car = false ∨
      db.vehicles.filter (fun v => v.owner_id == userId) = [] ∨
      payload.departure_time < now) :
    ∃ e : ApiError, create_ride db userId payload now = (.error e, db) ∧
      e.status = 400 := by
  unfold create_ride
  rw [hu]
  by_cases hc : u.owns_car
  · cases hv : db.vehicles.filter (fun v => v.owner_id == userId) with
    | nil =>
      refine ⟨.noVehicle, ?_, rfl⟩
      simp [hc, hv]
    | cons veh rest =>
      have hd : payload.departure_time < now := by
        rcases hbad with h | h | h
        · simp [hc] at h
        · simp [hv] at h
        · exact h
      refine ⟨.departureInPast, ?_, rfl⟩
      simp [hc, hv, hd]
  · refine ⟨.mustOwnCar, ?_, rfl⟩
    simp [hc]

/-- Witness for `create_ride_validation_rejects`: rider 2 (who does not
own a car) is rejected with a 400 error and `dbW` is unchanged. -/
theorem create_ride_validation_rejects_witness :
    ∃ e : ApiError,
      create_ride dbW 2 payloadZero 60 = (.error e, dbW) ∧ e.status = 400 :=
  create_ride_validation_rejects dbW 2 payloadZero 60 riderA (by decide)
    (Or.inl (by decide))

/-- `reserve` either leaves the store unchanged (every failure branch) or,
when the found ride still has a strictly positive number of free seats,
appends exactly one CONFIRMED row for it. -/
theorem reserve_state_cases (db : DB) (userId rideId now : Nat) :
    (reserve db userId rideId now).2 = db ∨
    ∃ ride, findRide db rideId = some ride ∧
      (confirmedCount db ride.id : Int) < ride.seats_total ∧
      hasReservationRow db ride.id userId = false ∧
      (reserve db userId rideId now).2 =
        insertReservation db ride userId now := by
  unfold reserve
  cases hf : findRide db rideId with
  | none => exact Or.inl rfl
  | some ride =>
    by_cases hh : ride.host_id == userId
    · simp [hh]
    · simp only [hh, Bool.false_eq_true, if_false]
      by_cases hcap : (confirmedCount db ride.id : Int) ≥ ride.seats_total
      · simp [hcap]
      · simp only [hcap, if_false]
        by_cases hdup : hasReservationRow db ride.id userId
        · simp [hdup]
        · simp only [hdup, Bool.false_eq_true, if_false]
          exact Or.inr ⟨ride, rfl, by omega, by simpa using hdup, rfl⟩

/-- Inserting one CONFIRMED reservation for `ride` raises the CONFIRMED
count of `ride.id` by one and leaves every other ride's count unchanged. -/
theorem confirmedCount_insert (db : DB) (ride : Ride) (userId now x : Nat) :
    confirmedCount (insertReservation db ride userId now) x =
      confirmedCount db x + (if ride.id = x then 1 else 0) := by
  simp only [confirmedCount, insertReservation, newReservation,
    List.filter_append, List.length_append]
  congr 1
  by_cases hid : ride.id = x <;> simp [hid]

/-- In a store satisfying Invariant B, every view produced by
`list_rides` reports `seats_taken ≤ seats_total`. -/
theorem list_rides_bound (db : DB) (hB : InvariantB db) :
    ∀ v ∈ list_rides db, (v.seats_taken : Int) ≤ v.seats_total := by
  intro v hv
  have hmem : v ∈ db.rides.map (ride_to_full_dict db) :=
    (List.mergeSort_perm _ _).mem_iff.1 hv
  obtain ⟨r, hr, rfl⟩ := List.mem_map.1 hmem
  simpa [ride_to_full_dict] using hB r hr

/-- Claim C1: from any store satisfying Invariant B (no ride's CONFIRMED
count exceeds its `seats_total`; ride ids are the primary key), `reserve`
preserves Invariant B — it inserts only when the live CONFIRMED count is
strictly below `seats_total` — and consequently `list_rides` never
reports `seats_taken > seats_total` for any ride of the resulting
store. -/
theorem reserve_preserves_seat_bound (db : DB) (userId rideId now : Nat)
    (hnd : ridesIdNodup db) (hB : InvariantB db) :
    InvariantB (reserve db userId rideId now).2 ∧
    ∀ v ∈ list_rides (reserve db userId rideId now).2,
      (v.seats_taken : Int) ≤ v.seats_total := by
  have hB' : InvariantB (reserve db userId rideId now).2 := by
    rcases reserve_state_cases db userId rideId now with
      h | ⟨ride, hf, hcap, hdup, h⟩
    · rw [h]; exact hB
    · rw [h]
      intro r hr
      have hrr : r ∈ db.rides := by
        simpa [insertReservation] using hr
      rw [confirmedCount_insert]
      by_cases hid : ride.id = r.id
      · have hride_mem : ride ∈ db.rides := List.mem_of_find?_eq_some hf
        have hreq : r = ride :=
          List.inj_on_of_nodup_map hnd hrr hride_mem hid.symm
        subst hreq
        simp only [hid, if_pos]
        push_cast
        omega
      · simp only [hid, if_neg, if_false, Nat.add_zero]
        exact hB r hrr
  exact ⟨hB', list_rides_bound _ hB'⟩

/-- Witness for `reserve_preserves_seat_bound`: rider 3 attempts the full
one-seat ride of `dbFull`; the bound holds afterwards (the attempt is
rejected with `rideFull`). -/
theorem reserve_preserves_seat_bound_witness :
    InvariantB (reserve dbFull 3 1 5).2 ∧
    ∀ v ∈ list_rides (reserve dbFull 3 1 5).2,
      (v.seats_taken : Int) ≤ v.seats_total :=
  reserve_preserves_seat_bound dbFull 3 1 5
    (by unfold ridesIdNodup; decide) (by unfold InvariantB; decide)

end Carpool

namespace Carpool

/-- In a reservation list whose (ride, rider) pairs are pairwise
distinct, at most one row matches any fixed (ride, rider, CONFIRMED)
filter. -/
theorem filter_pair_length_le_one (l : List Reservation) (rid uid : Nat)
    (h : l.Pairwise
      (fun a b => ¬(a.ride_id = b.ride_id ∧ a.rider_id = b.rider_id))) :
    (l.filter (fun r => r.ride_id == rid && r.rider_id == uid &&
      r.status == "CONFIRMED")).length ≤ 1 := by
  induction l with
  | nil => simp
  | cons a t ih =>
    rw [List.pairwise_cons] at h
    obtain ⟨h1, h2⟩ := h
    cases hp : (a.ride_id == rid && a.rider_id == uid &&
        a.status == "CONFIRMED") with
    | true =>
      have ht : t.filter (fun r => r.ride_id == rid && r.rider_id == uid &&
          r.status == "CONFIRMED") = [] := by
        rw [List.filter_eq_nil_iff]
        intro b hb hpb
        simp only [Bool.and_eq_true, beq_iff_eq] at hp hpb
        exact h1 b hb ⟨hp.1.1.trans hpb.1.1.symm, hp.1.2.trans hpb.1.2.symm⟩
      simp [List.filter_cons, hp, ht]
    | false =>
      simp only [List.filter_cons, hp, Bool.false_eq_true, if_false]
      exact ih h2

/-- The store-level uniqueness constraint implies spec Invariant A. -/
theorem invariantA_of_pairUnique (db : DB) (h : pairUnique db) :
    InvariantA db :=
  fun rideId riderId => filter_pair_length_le_one db.reservations rideId riderId h

/-- `reserve` preserves the (ride, rider) uniqueness constraint: it
inserts only after the store reported no row for the pair. -/
theorem reserve_preserves_pairUnique (db : DB) (userId rideId now : Nat)
    (h : pairUnique db) : pairUnique (reserve db userId rideId now).2 := by
  rcases reserve_state_cases db userId rideId now with
    h' | ⟨ride, hf, hcap, hdup, h'⟩
  · rw [h']; exact h
  · rw [h']
    unfold pairUnique insertReservation
    rw [List.pairwise_append]
    refine ⟨h, List.pairwise_singleton _ _, ?_⟩
    intro a ha b hb
    simp only [List.mem_singleton] at hb
    subst hb
    unfold hasReservationRow at hdup
    rw [List.any_eq_false] at hdup
    intro hpair
    exact absurd (by simpa [newReservation] using hpair)
      (by simpa using hdup a ha)

/-- Claim C4: when `reserve` passes the existence, self-host and capacity
checks but a reservation row for (ride, rider) already exists — any
status — the uniqueness violation raised by the insert is caught and
reported as the client-facing `duplicateReservation` outcome with the
insert rolled back (the store is returned unchanged); and `reserve`
preserves the (ride, rider) uniqueness constraint, so a store satisfying
it also satisfies spec Invariant A (at most one CONFIRMED reservation per
rider per ride) after any `reserve`. -/
theorem reserve_duplicate_reclassified (db : DB) (userId rideId now : Nat) :
    (∀ ride, findRide db rideId = some ride → ride.host_id ≠ userId →
      (confirmedCount db ride.id : Int) < ride.seats_total →
      hasReservationRow db ride.id userId = true →
      reserve db userId rideId now = (.error .duplicateReservation, db)) ∧
    (pairUnique db → pairUnique (reserve db userId rideId now).2) ∧
    (pairUnique db → InvariantA (reserve db userId rideId now).2) := by
  refine ⟨?_, reserve_preserves_pairUnique db userId rideId now,
    fun hp => invariantA_of_pairUnique _
      (reserve_preserves_pairUnique db userId rideId now hp)⟩
  intro ride hf hh hcap hdup
  unfold reserve
  rw [hf]
  simp [hh, hdup, not_le.2 hcap]

/-- Witness for `reserve_duplicate_reclassified`: in `dbDup`, ride 2 has
free seats yet rider 2 already holds a row, so their attempt is rejected
as `duplicateReservation` and both invariants hold afterwards. -/
theorem reserve_duplicate_reclassified_witness :
    reserve dbDup 2 2 6 = (.error .duplicateReservation, dbDup) ∧
    pairUnique (reserve dbDup 2 2 6).2 ∧
    InvariantA (reserve dbDup 2 2 6).2 := by
  have hp : pairUnique dbDup := by
    unfold pairUnique
    exact List.pairwise_singleton _ _
  exact ⟨(reserve_duplicate_reclassified dbDup 2 2 6).1 rideTwo (by decide)
      (by decide) (by decide) (by decide),
    (reserve_duplicate_reclassified dbDup 2 2 6).2.1 hp,
    (reserve_duplicate_reclassified dbDup 2 2 6).2.2 hp⟩

/-- Claim C8: `list_rides` returns every stored ride exactly once (the
output is a permutation of the rides table mapped through
`ride_to_full_dict`), sorted ascending by departure time, and every entry
carries the live CONFIRMED count as `seats_taken` together with the host
nickname/avatar and vehicle name/model/photo joins. -/
theorem list_rides_complete_sorted_joined (db : DB) :
    (list_rides db).Perm (db.rides.map (ride_to_full_dict db)) ∧
    (list_rides db).Sorted (fun a b => a.departure_time ≤ b.departure_time) ∧
    ∀ v ∈ list_rides db, ∃ r ∈ db.rides,
      v.id = r.id ∧
      v.seats_taken = confirmedCount db r.id ∧
      v.seats_total = r.seats_total ∧
      v.departure_time = r.departure_time ∧
      v.host_nickname = (findUser db r.host_id).bind User.nickname ∧
      v.host_avatar_url = (findUser db r.host_id).bind User.avatar_url ∧
      v.vehicle_name = (findVehicle db r.vehicle_id).map Vehicle.name ∧
      v.vehicle_model = (findVehicle db r.vehicle_id).map Vehicle.model ∧
      v.vehicle_photo_url = (findVehicle db r.vehicle_id).bind
        Vehicle.photo_url := by
  refine ⟨List.mergeSort_perm _ _, ?_, ?_⟩
  · have hs := @List.sorted_mergeSort RideView
      (fun a b => decide (a.departure_time ≤ b.departure_time))
      (fun a b c hab hbc => by
        simp only [decide_eq_true_iff] at *
        omega)
      (fun a b => by
        simp only [Bool.or_eq_true, decide_eq_true_iff]
        omega)
      (db.rides.map (ride_to_full_dict db))
    exact hs.imp (fun h => by simpa using h)
  · intro v hv
    have hmem : v ∈ db.rides.map (ride_to_full_dict db) :=
      (List.mergeSort_perm _ _).mem_iff.1 hv
    obtain ⟨r, hr, rfl⟩ := List.mem_map.1 hmem
    exact ⟨r, hr, rfl, rfl, rfl, rfl, rfl, rfl, rfl, rfl, rfl⟩

/-- Witness for `list_rides_complete_sorted_joined` at the two-ride store
`dbDup`. -/
theorem list_rides_complete_sorted_joined_witness :
    (list_rides dbDup).Perm (dbDup.rides.map (ride_to_full_dict dbDup)) ∧
    (list_rides dbDup).Sorted
      (fun a b => a.departure_time ≤ b.departure_time) ∧
    ∀ v ∈ list_rides dbDup, ∃ r ∈ dbDup.rides,
      v.id = r.id ∧
      v.seats_taken = confirmedCount dbDup r.id ∧
      v.seats_total = r.seats_total ∧
      v.departure_time = r.departure_time ∧
      v.host_nickname = (findUser dbDup r.host_id).bind User.nickname ∧
      v.host_avatar_url = (findUser dbDup r.host_id).bind User.avatar_url ∧
      v.vehicle_name = (findVehicle dbDup r.vehicle_id).map Vehicle.name ∧
      v.vehicle_model = (findVehicle dbDup r.vehicle_id).map Vehicle.model ∧
      v.vehicle_photo_url = (findVehicle dbDup r.vehicle_id).bind
        Vehicle.photo_url :=
  list_rides_complete_sorted_joined dbDup

end Carpool

namespace Carpool

/-- A success outcome is `isOk`. -/
theorem except_ok_isOk (x : Reservation) :
    (Except.ok x : Except ApiError Reservation).isOk = true := rfl

/-- An error outcome is not `isOk`. -/
theorem except_error_isOk (e : ApiError) :
    (Except.error e : Except ApiError Reservation).isOk = false := rfl

/-- `successCount` unfolds over the head of a batch. -/
theorem successCount_cons (o : Except ApiError Reservation)
    (l : List (Except ApiError Reservation)) :
    successCount (o :: l) = (if o.isOk then 1 else 0) + successCount l := by
  cases ho : o.isOk <;> simp [successCount, List.filter_cons, ho] <;> omega

/-- Failures in a batch are the attempts that are not successes. -/
theorem length_filter_not_isOk (l : List (Except ApiError Reservation)) :
    (l.filter (fun o => !o.isOk)).length = l.length - successCount l := by
  induction l with
  | nil => simp [successCount]
  | cons a t ih =>
    have hb := List.length_filter_le Except.isOk t
    cases ha : a.isOk <;>
      simp [List.filter_cons, ha, ih, successCount_cons, successCount] <;>
      omega

/-- After inserting rider `uid`'s reservation on `ride`, a pair row for
rider `u` on the same ride exists iff it existed before or `u` is
`uid`. -/
theorem hasReservationRow_insert (db : DB) (ride : Ride) (uid now u : Nat) :
    hasReservationRow (insertReservation db ride uid now) ride.id u =
      (hasReservationRow db ride.id u || (uid == u)) := by
  simp [hasReservationRow, insertReservation, newReservation, List.any_append]

/-- Core induction for the capacity race: serialized attempts by distinct
non-host riders with no prior rows on the ride produce exactly
`min (attempts) (free seats)` successes, and every failed attempt fails
with `rideFull`. -/
theorem reserveAll_outcomes (riders : List Nat) (db : DB) (ride : Ride)
    (rideId now N : Nat)
    (hf : findRide db rideId = some ride)
    (hN : ride.seats_total = (N : Int))
    (hnd : riders.Nodup)
    (hhost : ∀ u ∈ riders, u ≠ ride.host_id)
    (hnorow : ∀ u ∈ riders, hasReservationRow db ride.id u = false)
    (hle : confirmedCount db ride.id ≤ N) :
    (reserveAll db riders rideId now).1.length = riders.length ∧
    successCount (reserveAll db riders rideId now).1 =
      min riders.length (N - confirmedCount db ride.id) ∧
    ∀ o ∈ (reserveAll db riders rideId now).1, o.isOk = false →
      o = .error .rideFull := by
  induction riders generalizing db with
  | nil => simp [reserveAll, successCount]
  | cons uid rest ih =>
    have hh : (ride.host_id == uid) = false := by
      have := hhost uid (List.mem_cons_self uid rest)
      simp [beq_eq_false_iff_ne]
      exact fun h => this h.symm
    rw [List.nodup_cons] at hnd
    by_cases hcap : N ≤ confirmedCount db ride.id
    · have hkN : confirmedCount db ride.id = N := le_antisymm hle hcap
      have hres : reserve db uid rideId now = (.error .rideFull, db) := by
        unfold reserve
        rw [hf]
        simp only [hh, Bool.false_eq_true, if_false]
        have hge : (confirmedCount db ride.id : Int) ≥ ride.seats_total := by
          rw [hN, hkN]
        simp [hge]
      obtain ⟨l1, l2, l3⟩ := ih db hf hnd.2
        (fun u hu => hhost u (List.mem_cons_of_mem _ hu))
        (fun u hu => hnorow u (List.mem_cons_of_mem _ hu)) hle
      refine ⟨?_, ?_, ?_⟩
      · simp [reserveAll, hres, l1]
      · simp only [reserveAll, hres]
        rw [successCount_cons, except_error_isOk, if_neg (by simp)]
        rw [l2, hkN]
        simp
      · intro o ho hko
        simp only [reserveAll, hres] at ho
        rcases List.mem_cons.1 ho with h | h
        · rw [h]
        · exact l3 o h hko
    · push_neg at hcap
      have hdup : hasReservationRow db ride.id uid = false :=
        hnorow uid (List.mem_cons_self uid rest)
      have hres : reserve db uid rideId now =
          (.ok (newReservation db ride uid now),
           insertReservation db ride uid now) := by
        unfold reserve
        rw [hf]
        simp only [hh, Bool.false_eq_true, if_false]
        have hc : ¬((confirmedCount db ride.id : Int) ≥ ride.seats_total) := by
          rw [hN]
          exact_mod_cast not_le.2 hcap
        simp [hc, hdup]
      set db' := insertReservation db ride uid now with hdb'
      have hf' : findRide db' rideId = some ride := hf
      have hcount' : confirmedCount db' ride.id =
          confirmedCount db ride.id + 1 := by
        rw [hdb', confirmedCount_insert]
        simp
      have hnorow' : ∀ u ∈ rest, hasReservationRow db' ride.id u = false := by
        intro u hu
        rw [hdb', hasReservationRow_insert]
        have h1 := hnorow u (List.mem_cons_of_mem _ hu)
        have h2 : (uid == u) = false := by
          simp [beq_eq_false_iff_ne]
          exact fun h => hnd.1 (h ▸ hu)
        simp [h1, h2]
      obtain ⟨l1, l2, l3⟩ := ih db' hf' hnd.2
        (fun u hu => hhost u (List.mem_cons_of_mem _ hu)) hnorow'
        (by omega)
      rw [hcount'] at l2
      refine ⟨?_, ?_, ?_⟩
      · simp [reserveAll, hres, l1]
      · simp only [reserveAll, hres]
        rw [successCount_cons, except_ok_isOk, if_pos rfl]
        rw [l2]
        simp only [List.length_cons]
        omega
      · intro o ho hko
        simp only [reserveAll, hres] at ho
        rcases List.mem_cons.1 ho with h | h
        · rw [h, except_ok_isOk] at hko
          simp at hko
        · exact l3 o h hko

end Carpool

namespace Carpool

/-- Claim C2: for a ride with `seats_total = N` and no prior reservations,
issuing more than N reservation attempts by distinct non-host riders — in
any serialization order, which by the per-ride `with_for_update` critical
section covers every interleaving of concurrent requests — yields exactly
N successes, and every one of the remaining attempts fails with
`rideFull`. -/
theorem reserve_capacity_race (db : DB) (ride : Ride) (rideId now N : Nat)
    (riders : List Nat)
    (hf : findRide db rideId = some ride)
    (hN : ride.seats_total = (N : Int))
    (hzero : confirmedCount db ride.id = 0)
    (hnd : riders.Nodup)
    (hhost : ∀ u ∈ riders, u ≠ ride.host_id)
    (hnorow : ∀ u ∈ riders, hasReservationRow db ride.id u = false)
    (hmore : N < riders.length) :
    successCount (reserveAll db riders rideId now).1 = N ∧
    ((reserveAll db riders rideId now).1.filter
      (fun o => !o.isOk)).length = riders.length - N ∧
    ∀ o ∈ (reserveAll db riders rideId now).1, o.isOk = false →
      o = .error .rideFull := by
  obtain ⟨hlen, hsucc, herr⟩ :=
    reserveAll_outcomes riders db ride rideId now N hf hN hnd hhost hnorow
      (by omega)
  rw [hzero] at hsucc
  have h1 : successCount (reserveAll db riders rideId now).1 = N := by
    rw [hsucc]
    omega
  refine ⟨h1, ?_, herr⟩
  rw [length_filter_not_isOk, hlen, h1]

/-- Witness for `reserve_capacity_race`: riders 2 and 3 race for the
single seat of ride 1 in `dbW`; exactly one succeeds and the other gets
`rideFull`. -/
theorem reserve_capacity_race_witness :
    successCount (reserveAll dbW [2, 3] 1 20).1 = 1 ∧
    ((reserveAll dbW [2, 3] 1 20).1.filter
      (fun o => !o.isOk)).length = 1 ∧
    ∀ o ∈ (reserveAll dbW [2, 3] 1 20).1, o.isOk = false →
      o = .error .rideFull :=
  have h := reserve_capacity_race dbW rideW 1 20 1 [2, 3] (by decide)
    (by decide) (by decide) (by decide) (by decide) (by decide) (by decide)
  ⟨h.1, h.2.1, h.2.2⟩

end Carpool
